import Mathlib

/-!
Verification of the image-generation dispatch core (shipdeckai/image-gen).

This file shallow-embeds the resilience shell (src/dist/providers/base.js),
the provider selection engine (src/dist/services/providerSelector.js, shipped
as src/unnamed/part_007), the provider registry and fallback configuration
(src/dist/config.js), the generate-dispatch slice of the MCP server
(src/unnamed/part_001), and the OPENAI / RECRAFT provider entry points
(src/dist/providers/openai.js, src/dist/providers/recraft.js).

Conventions of the embedding:
* JavaScript Date.now timestamps are Nat milliseconds.
* JavaScript Map objects are association lists that preserve the insertion
  order semantics of Map (set on an existing key keeps its position, set on
  a fresh key appends).
* Network exchanges are oracles: a function from the attempt index to the
  outcome that the surrounding code observes for that attempt.
* Thrown exceptions are an Err value: ProviderError instances keep their
  message, provider tag and isRetryable flag; every other thrown Error is a
  plainError.
* JavaScript numbers used by the selection engine are exact rationals.
-/

namespace ImageGen

/-- Error values thrown by the core: a ProviderError (message, provider name,
isRetryable flag) from src/dist/types.js, or a plain JavaScript Error. -/
inductive Err where
  | providerError (message : String) (provider : String) (isRetryable : Bool)
  | plainError (message : String)
deriving DecidableEq, Repr

/-- The condition on which executeWithRetry rethrows without retrying
(base.js line 265): the error is a ProviderError and its isRetryable flag
is false. -/
def Err.isNonRetryableProviderError : Err → Bool
  | .providerError _ _ r => !r
  | .plainError _ => false

/-- The message carried by a thrown error. -/
def Err.message : Err → String
  | .providerError m _ _ => m
  | .plainError m => m

/-- The condition on which the dispatch layer attempts a cross-provider
fallback (part_001 line 660): the error is a ProviderError and its
isRetryable flag is true. -/
def Err.isRetryableProviderError : Err → Bool
  | .providerError _ _ r => r
  | .plainError _ => false

/-- One generated image of a ProviderResult: an encoded data URL and its
declared format. -/
structure ImageData where
  dataUrl : String
  format : String
deriving DecidableEq, Repr

/-- Result returned by a provider generate/edit call (src/dist/types.js):
images, producing provider name, optional model, optional warnings. -/
structure ProviderResult where
  images : List ImageData
  provider : String
  model : Option String
  warnings : Option (List String)
deriving DecidableEq, Repr

/-- GenerateInput after zod parsing (src/dist/types.js GenerateInputSchema),
restricted to the fields the core logic reads. -/
structure GenerateInput where
  prompt : String
  provider : Option String
  width : Option Nat
  height : Option Nat
  model : Option String
  seed : Option Nat
deriving DecidableEq, Repr

/-! ### Association lists with JavaScript Map insertion-order semantics -/

/-- Lookup in an insertion-ordered association list (Map.get). -/
def alistLookup {κ ν : Type} [DecidableEq κ] (k : κ) : List (κ × ν) → Option ν
  | [] => none
  | (k', v) :: rest => if k' = k then some v else alistLookup k rest

/-- Map.set: replace the value in place if the key exists, append otherwise. -/
def alistSet {κ ν : Type} [DecidableEq κ] (k : κ) (v : ν) : List (κ × ν) → List (κ × ν)
  | [] => [(k, v)]
  | (k', v') :: rest => if k' = k then (k, v) :: rest else (k', v') :: alistSet k v rest

/-- Map.delete for a key that occurs at most once. -/
def alistErase {κ ν : Type} [DecidableEq κ] (k : κ) : List (κ × ν) → List (κ × ν)
  | [] => []
  | (k', v') :: rest => if k' = k then rest else (k', v') :: alistErase k rest

/-! ### Substring search (JavaScript String.prototype.includes) -/

/-- Does the second list start with the first one? -/
def listHasPre : List Char → List Char → Bool
  | [], _ => true
  | _ :: _, [] => false
  | a :: as, b :: bs => a == b && listHasPre as bs

/-- Does the needle occur as a contiguous run of the haystack? -/
def listHasSub (needle : List Char) : List Char → Bool
  | [] => needle.isEmpty
  | b :: bs => listHasPre needle (b :: bs) || listHasSub needle bs

/-- JavaScript hay.includes(needle). -/
def strIncludes (hay needle : String) : Bool :=
  listHasSub needle.toList hay.toList

/-- JavaScript s.toLowerCase() on the ASCII strings the core handles. -/
def strToLower (s : String) : String :=
  String.mk (s.data.map Char.toLower)

/-- JavaScript s.toUpperCase() on the ASCII strings the core handles. -/
def strToUpper (s : String) : String :=
  String.mk (s.data.map Char.toUpper)

/-- JavaScript s.startsWith(pre). -/
def strStartsWith (s pre : String) : Bool :=
  listHasPre pre.data s.data

/-- JavaScript s.split(sep).length for a one-character separator: one more
than the number of separator occurrences. -/
def splitCount (sep : Char) (s : String) : Nat :=
  s.data.countP (fun c => c == sep) + 1

/-- JavaScript s.trim(): strip leading and trailing whitespace. -/
def strTrim (s : String) : String :=
  String.mk ((((s.data.dropWhile Char.isWhitespace).reverse).dropWhile
    Char.isWhitespace).reverse)

/-! ### Resilience shell constants (base.js lines 4-16) -/

def MAX_PROMPT_LENGTH : Nat := 4000
def API_KEY_MIN_LENGTH : Nat := 10
def MAX_RETRIES : Nat := 3
def INITIAL_RETRY_DELAY : Nat := 1000
def CACHE_TTL : Nat := 5 * 60 * 1000
def RATE_LIMIT_WINDOW : Nat := 60 * 1000
def MAX_REQUESTS_PER_WINDOW : Nat := 10

/-! ### Prompt validation (base.js validatePrompt, lines 188-195) -/

/-- validatePrompt: empty (after trim) prompts and prompts longer than
MAX_PROMPT_LENGTH raise a non-retryable ProviderError. -/
def validatePrompt (name prompt : String) : Except Err Unit :=
  if (strTrim prompt).length = 0 then
    .error (.providerError "Prompt cannot be empty" name false)
  else if MAX_PROMPT_LENGTH < prompt.length then
    .error (.providerError
      ("Prompt length " ++ toString prompt.length ++
        " exceeds maximum allowed length of " ++ toString MAX_PROMPT_LENGTH)
      name false)
  else .ok ()

/-! ### API key validation (base.js validateApiKey, lines 164-184) -/

def placeholders : List String := ["your-api-key", "xxx", "placeholder", "test", "demo"]

/-- validateApiKey: reject missing/empty keys, keys shorter than
API_KEY_MIN_LENGTH, and keys containing a placeholder substring; accept
keys starting with "test-" when running in a test environment.
The test-environment probe (NODE_ENV === test or VITEST) is the Boolean
argument. -/
def validateApiKey (isTestEnv : Bool) (key : Option String) : Bool :=
  match key with
  | none => false
  | some k =>
    if k = "" then false
    else if k.length < API_KEY_MIN_LENGTH then false
    else if isTestEnv && strStartsWith k "test-" then true
    else if placeholders.any (fun p => strIncludes (strToLower k) p) then false
    else true

/-- Truthiness of an optional environment variable (JavaScript !!value):
present and non-empty. -/
def envKeyPresent (key : Option String) : Bool :=
  match key with
  | none => false
  | some k => k != ""

/-- OpenAIProvider.isConfigured (openai.js lines 16-18): only the truthiness
of OPENAI_API_KEY, with no format sanity check. The STABILITY, REPLICATE,
GEMINI, IDEOGRAM, BFL, LEONARDO, FAL and CLIPDROP providers use this same
truthiness test for their own key. -/
def openaiIsConfigured (key : Option String) : Bool :=
  envKeyPresent key

/-- RecraftProvider.isConfigured (recraft.js lines 28-30): the only provider
that delegates to validateApiKey. -/
def recraftIsConfigured (isTestEnv : Bool) (key : Option String) : Bool :=
  validateApiKey isTestEnv key

/-! ### Rate limiter (base.js checkRateLimit, lines 199-219) -/

/-- One entry of the module-level rateLimitMap: request count and
window-reset timestamp. -/
structure RateLimitEntry where
  count : Nat
  resetTime : Nat
deriving DecidableEq, Repr

/-- The module-level rateLimitMap keyed by provider name. -/
abbrev RateLimitMap := List (String × RateLimitEntry)

/-- Outcome of checkRateLimit: either the call is admitted and the map is
updated, or a rate-limited error is raised carrying the remaining wait in
whole seconds (Math.ceil of the remaining window). -/
inductive RateLimitOutcome where
  | allowed (m : RateLimitMap)
  | limited (waitSeconds : Nat)
deriving DecidableEq, Repr

/-- checkRateLimit: inside a live window the count is incremented unless it
already reached MAX_REQUESTS_PER_WINDOW, in which case a rate-limited error
is raised; a missing or expired window is replaced by a fresh one with
count 1. -/
def checkRateLimit (name : String) (now : Nat) (m : RateLimitMap) : RateLimitOutcome :=
  match alistLookup name m with
  | some limit =>
    if now < limit.resetTime then
      if MAX_REQUESTS_PER_WINDOW ≤ limit.count then
        .limited ((limit.resetTime - now + 999) / 1000)
      else
        .allowed (alistSet name ⟨limit.count + 1, limit.resetTime⟩ m)
    else
      .allowed (alistSet name ⟨1, now + RATE_LIMIT_WINDOW⟩ m)
  | none => .allowed (alistSet name ⟨1, now + RATE_LIMIT_WINDOW⟩ m)

/-- The ProviderError thrown by checkRateLimit when the ceiling is hit:
marked retryable. -/
def rateLimitError (name : String) (waitSeconds : Nat) : Err :=
  .providerError
    ("Rate limit exceeded for " ++ name ++ ". Please wait " ++
      toString waitSeconds ++ " seconds.")
    name true

/-- Run n sequential checkRateLimit calls for one provider at one timestamp,
stopping at the first rate-limited outcome. -/
def rlRepeat (name : String) (now : Nat) (m : RateLimitMap) : Nat → Except Nat RateLimitMap
  | 0 => .ok m
  | n + 1 =>
    match checkRateLimit name now m with
    | .allowed m' => rlRepeat name now m' n
    | .limited w => .error w

/-! ### Response cache (base.js lines 223-252, 281-290) -/

/-- Cache fingerprint (generateCacheKey, base.js lines 281-290): provider
name, prompt, model, dimensions and seed. The JSON serialization of the
source is replaced by the tuple itself, which has the same equality. -/
structure CacheKey where
  provider : String
  prompt : String
  model : Option String
  width : Option Nat
  height : Option Nat
  seed : Option Nat
deriving DecidableEq, Repr

/-- One entry of the module-level responseCache. -/
structure CacheEntry where
  result : ProviderResult
  timestamp : Nat
deriving DecidableEq, Repr

abbrev ResponseCache := List (CacheKey × CacheEntry)

/-- generateCacheKey for a generate input. -/
def generateCacheKey (providerName : String) (input : GenerateInput) : CacheKey :=
  ⟨providerName, input.prompt, input.model, input.width, input.height, input.seed⟩

/-- getCachedResult: a hit younger than CACHE_TTL is returned; an expired
entry is deleted and treated as absent. -/
def getCachedResult (key : CacheKey) (now : Nat) (c : ResponseCache) :
    Option ProviderResult × ResponseCache :=
  match alistLookup key c with
  | some cached =>
    if now - cached.timestamp < CACHE_TTL then (some cached.result, c)
    else (none, alistErase key c)
  | none => (none, c)

/-- The opportunistic sweep inside cacheResult: entries strictly older than
CACHE_TTL are dropped. -/
def sweepExpired (now : Nat) (c : ResponseCache) : ResponseCache :=
  c.filter (fun e => decide (now - e.2.timestamp ≤ CACHE_TTL))

/-- cacheResult: insert the entry, then sweep expired entries once the map
holds more than 100 entries. -/
def cacheResult (key : CacheKey) (r : ProviderResult) (now : Nat) (c : ResponseCache) :
    ResponseCache :=
  let c' := alistSet key ⟨r, now⟩ c
  if 100 < c'.length then sweepExpired now c' else c'

/-! ### Retry executor (base.js executeWithRetry, lines 256-277) -/

/-- Observable trace of one executeWithRetry run: final outcome, number of
invocations of the wrapped operation, and the backoff sleeps performed
between attempts, in order. -/
structure RetryTrace (α : Type) where
  result : Except Err α
  invocations : Nat
  delays : List Nat
deriving Repr

/-- The backoff sleep after a failed attempt (base.js line 270):
min(INITIAL_RETRY_DELAY * 2 ^ attempt, 10000), with no jitter term. -/
def retryDelay (attempt : Nat) : Nat :=
  min (INITIAL_RETRY_DELAY * 2 ^ attempt) 10000

/-- The retry loop. The wrapped operation is the oracle fn, giving the
outcome of each attempt by its index. The fuel argument equals
retries - attempt and only drives the recursion. -/
def retryGo {α : Type} (fn : Nat → Except Err α) (name : String) (retries : Nat) :
    Nat → Nat → RetryTrace α
  | 0, attempt =>
    ⟨.error (.providerError ("Failed after " ++ toString retries ++ " retries") name false),
      attempt, []⟩
  | fuel + 1, attempt =>
    match fn attempt with
    | .ok a => ⟨.ok a, attempt + 1, []⟩
    | .error e =>
      if e.isNonRetryableProviderError then ⟨.error e, attempt + 1, []⟩
      else if attempt + 1 < retries then
        let rest := retryGo fn name retries fuel (attempt + 1)
        ⟨rest.result, rest.invocations, retryDelay attempt :: rest.delays⟩
      else ⟨.error e, attempt + 1, []⟩

/-- executeWithRetry with an explicit retry budget. -/
def executeWithRetry {α : Type} (fn : Nat → Except Err α) (name : String) (retries : Nat) :
    RetryTrace α :=
  retryGo fn name retries retries 0

/-! ### Selection engine (providerSelector.js, shipped as src/unnamed/part_007) -/

/-- One entry of the useCaseMapping table. -/
structure UseCaseConfig where
  keywords : List String
  preferredProviders : List String
  fallbackProviders : List String
  confidence : ℚ
deriving DecidableEq, Repr

/-- The shipped useCaseMapping table (part_007 lines 2-123), in object-key
order. -/
def useCaseMapping : List (String × UseCaseConfig) := [
  ("vector-design",
    ⟨["vector", "svg", "scalable", "print-ready", "vector art", "vector illustration"],
      ["RECRAFT"], ["IDEOGRAM", "OPENAI"], 0.95⟩),
  ("logo",
    ⟨["logo", "brand", "icon", "symbol", "emblem", "mark", "badge", "branding",
        "brand identity"],
      ["RECRAFT", "IDEOGRAM"], ["OPENAI", "LEONARDO"], 0.9⟩),
  ("text-heavy",
    ⟨["text", "poster", "banner", "sign", "quote", "typography", "lettering", "flyer",
        "advertisement", "text layout", "perfect text"],
      ["RECRAFT", "IDEOGRAM"], ["OPENAI", "GEMINI"], 0.95⟩),
  ("graphic-design",
    ⟨["graphic design", "marketing material", "packaging", "print design",
        "professional design"],
      ["RECRAFT", "IDEOGRAM"], ["OPENAI", "LEONARDO"], 0.9⟩),
  ("photorealistic",
    ⟨["realistic", "photo", "photography", "real", "lifelike", "portrait", "headshot",
        "professional"],
      ["BFL", "STABLE"], ["GEMINI", "DALLE"], 0.85⟩),
  ("artistic",
    ⟨["art", "painting", "illustration", "creative", "abstract", "surreal", "imaginative",
        "artistic"],
      ["LEONARDO", "STABLE"], ["BFL", "REPLICATE"], 0.85⟩),
  ("fantasy",
    ⟨["fantasy", "magical", "mythical", "dragon", "wizard", "medieval", "enchanted",
        "mystical", "rpg"],
      ["LEONARDO", "STABLE"], ["BFL", "REPLICATE"], 0.9⟩),
  ("cinematic",
    ⟨["cinematic", "dramatic", "epic", "movie", "film", "scene", "atmospheric", "moody"],
      ["LEONARDO", "BFL"], ["STABLE", "DALLE"], 0.85⟩),
  ("game-asset",
    ⟨["game", "asset", "sprite", "texture", "character design", "concept art", "gaming",
        "video game"],
      ["LEONARDO", "STABLE"], ["FAL", "BFL"], 0.85⟩),
  ("ui-design",
    ⟨["ui", "ux", "interface", "app", "website", "dashboard", "mockup", "wireframe",
        "design"],
      ["DALLE", "IDEOGRAM"], ["STABLE", "LEONARDO"], 0.85⟩),
  ("product",
    ⟨["product", "ecommerce", "catalog", "item", "merchandise", "packaging"],
      ["BFL", "STABLE"], ["DALLE", "GEMINI"], 0.8⟩),
  ("social-media",
    ⟨["instagram", "tiktok", "youtube", "thumbnail", "story", "post", "reel", "viral",
        "social"],
      ["LEONARDO", "IDEOGRAM"], ["BFL", "FAL"], 0.8⟩),
  ("technical",
    ⟨["diagram", "chart", "graph", "flowchart", "architecture", "schematic", "blueprint"],
      ["DALLE", "GEMINI"], ["IDEOGRAM", "STABLE"], 0.8⟩),
  ("3d-render",
    ⟨["3d", "render", "cgi", "three dimensional", "model", "sculpture"],
      ["STABLE", "BFL"], ["DALLE", "LEONARDO"], 0.85⟩),
  ("anime",
    ⟨["anime", "manga", "kawaii", "chibi", "japanese", "otaku"],
      ["LEONARDO", "STABLE"], ["REPLICATE", "FAL"], 0.9⟩),
  ("carousel",
    ⟨["carousel", "series", "consistent", "multiple", "sequence", "slides"],
      ["LEONARDO"], ["IDEOGRAM", "STABLE"], 0.95⟩),
  ("quick-draft",
    ⟨["quick", "draft", "fast", "rapid", "speed", "instant"],
      ["FAL"], ["DALLE", "GEMINI"], 0.9⟩),
  ("post-process",
    ⟨["remove background", "transparent", "upscale", "enhance", "cleanup", "edit"],
      ["CLIPDROP"], ["STABLE", "OPENAI"], 0.95⟩),
  ("infographic",
    ⟨["infographic", "data", "visualization", "stats", "chart", "graph", "information"],
      ["IDEOGRAM", "DALLE"], ["GEMINI", "STABLE"], 0.85⟩),
  ("multi-image",
    ⟨["combine", "multiple images", "composite", "merge", "collage", "blend images",
        "mix images"],
      ["GEMINI"], ["DALLE", "LEONARDO"], 0.9⟩)]

/-- Add one keyword-to-use-case edge to the reverse index, with JavaScript
Map/Set semantics (fresh keyword appended; fresh use case appended to the
set of an existing keyword). -/
def indexAdd (kw uc : String) (idx : List (String × List String)) :
    List (String × List String) :=
  match alistLookup kw idx with
  | some ucs => if ucs.contains uc then idx else alistSet kw (ucs ++ [uc]) idx
  | none => idx ++ [(kw, [uc])]

/-- The precompiled reverse index keywordToUseCases (part_007 lines 124-138),
built by iterating useCaseMapping in declared order. -/
def keywordToUseCases : List (String × List String) :=
  useCaseMapping.foldl
    (fun idx p => p.2.keywords.foldl (fun idx2 kw => indexAdd kw p.1 idx2) idx) []

/-- Per use case accumulator inside analyzePrompt. -/
structure ScoreData where
  score : Nat
  matchedKeywords : Nat
deriving DecidableEq, Repr

/-- Accumulate one matched keyword for one use case: the score grows by
keyword length times the keyword word count, the match count by one. -/
def scoreAdd (uc kw : String) (sc : List (String × ScoreData)) : List (String × ScoreData) :=
  let cur := (alistLookup uc sc).getD ⟨0, 0⟩
  alistSet uc ⟨cur.score + kw.length * splitCount ' ' kw, cur.matchedKeywords + 1⟩ sc

/-- analyzePrompt (part_007 lines 142-182): lower-case the prompt, score
every use case whose keyword occurs as a substring, and return the use case
with the strictly highest score together with
confidence * (0.5 + 0.5 * matched / total). Ties keep the earlier entry. -/
def analyzePrompt (prompt : String) : Option (String × ℚ) :=
  if strTrim prompt = "" then none
  else
    let lower := strToLower prompt
    let scores := keywordToUseCases.foldl
      (fun sc p =>
        if strIncludes lower p.1 then p.2.foldl (fun sc2 uc => scoreAdd uc p.1 sc2) sc
        else sc)
      []
    let best := scores.foldl
      (fun best p =>
        match alistLookup p.1 useCaseMapping with
        | none => best
        | some cfg =>
          let matchRatio : ℚ := (p.2.matchedKeywords : ℚ) / (cfg.keywords.length : ℚ)
          let finalConfidence := cfg.confidence * (0.5 + 0.5 * matchRatio)
          match best with
          | none => some (p.1, finalConfidence, p.2.score)
          | some b =>
            if b.2.2 < p.2.score then some (p.1, finalConfidence, p.2.score) else best)
      none
    best.map (fun b => (b.1, b.2.1))

/-- The quality-keyword preference list of the generic heuristics. -/
def qualityProviders : List String := ["BFL", "STABLE", "DALLE"]

/-- The speed-keyword preference list of the generic heuristics. -/
def speedProviders : List String := ["FAL", "GEMINI", "DALLE"]

/-- The fixed preference order closing the generic heuristics. -/
def preferredOrder : List String :=
  ["GEMINI", "OPENAI", "STABILITY", "BFL", "LEONARDO", "IDEOGRAM", "FAL", "REPLICATE"]

/-- selectProvider (part_007 lines 186-257): explicit available provider
first, then the classified use case preferences, then generic heuristics,
finally the first available provider; nothing only for an empty list. -/
def selectProvider (prompt : String) (availableProviders : List String)
    (explicitProvider : Option String) : Option String :=
  if availableProviders.isEmpty then none
  else
    let explicitHit :=
      match explicitProvider with
      | some e =>
        if e != "auto" && availableProviders.contains e then some e else none
      | none => none
    match explicitHit with
    | some e => some e
    | none =>
      let fromAnalysis :=
        match analyzePrompt prompt with
        | some a =>
          match alistLookup a.1 useCaseMapping with
          | some cfg =>
            match cfg.preferredProviders.find? availableProviders.contains with
            | some p => some p
            | none => cfg.fallbackProviders.find? availableProviders.contains
          | none => none
        | none => none
      match fromAnalysis with
      | some p => some p
      | none =>
        let lower := strToLower prompt
        let qualityHit :=
          if strIncludes lower "high quality" || strIncludes lower "professional" ||
              strIncludes lower "4k" then
            qualityProviders.find? availableProviders.contains
          else none
        match qualityHit with
        | some p => some p
        | none =>
          let speedHit :=
            if strIncludes lower "quick" || strIncludes lower "fast" ||
                strIncludes lower "draft" then
              speedProviders.find? availableProviders.contains
            else none
          match speedHit with
          | some p => some p
          | none =>
            match preferredOrder.find? availableProviders.contains with
            | some p => some p
            | none => availableProviders.head?

/-! ### Provider registry and fallback configuration (src/dist/config.js) -/

/-- The environment flags that the Config class reads. allowMock abbreviates
ALLOW_MOCK_PROVIDER equal true or NODE_ENV development/test. -/
structure Env where
  defaultProvider : Option String
  disableFallback : Bool
  allowMock : Bool
deriving DecidableEq, Repr

/-- The names Config.createProvider knows (config.js line 78). -/
def allProviderNames : List String :=
  ["MOCK", "OPENAI", "STABILITY", "REPLICATE", "GEMINI", "IDEOGRAM", "BFL", "LEONARDO",
    "FAL", "CLIPDROP", "RECRAFT"]

/-- Config.getProvider: uppercase the name and return the lazily created
instance, identified here by its canonical name; unknown names give
nothing. -/
def getProvider (name : String) : Option String :=
  if allProviderNames.contains (strToUpper name) then some (strToUpper name) else none

/-- The fixed fallback chain of Config.getDefaultProvider
(config.js line 141). -/
def fallbackChain : List String :=
  ["RECRAFT", "BFL", "OPENAI", "LEONARDO", "IDEOGRAM", "STABILITY", "GEMINI", "FAL",
    "REPLICATE"]

/-- Config.getConfiguredProviders: the known names whose provider reports
configured, in registry order. The cfg argument is the isConfigured verdict
of each provider instance. -/
def getConfiguredProviders (cfg : String → Bool) : List String :=
  allProviderNames.filter cfg

/-- Config.getDefaultProvider (config.js lines 115-155): DEFAULT_PROVIDER
when it names a configured provider; otherwise, with fallback disabled an
error, else the first configured name of the fallback chain, else MOCK when
allowed, else a configuration error. -/
def getDefaultProvider (env : Env) (cfg : String → Bool) : Except Err String :=
  let envHit :=
    match env.defaultProvider with
    | some d =>
      match getProvider d with
      | some p => if cfg p then some p else none
      | none => none
    | none => none
  match envHit with
  | some p => .ok p
  | none =>
    if env.disableFallback then
      match env.defaultProvider with
      | some d =>
        .error (.providerError
          ("Default provider " ++ d ++ " not configured and fallback is disabled") d false)
      | none =>
        .error (.providerError "No default provider configured and fallback is disabled"
          "NONE" false)
    else
      match fallbackChain.find? cfg with
      | some n => .ok n
      | none =>
        if env.allowMock then .ok "MOCK"
        else
          .error (.providerError
            ("No image generation providers configured. Please set up at least one " ++
              "provider API key (OPENAI_API_KEY, STABILITY_API_KEY, etc.). " ++
              "See documentation for setup instructions.")
            "NONE" false)

/-- Config.getProviderWithFallback (config.js lines 159-192): auto-selection
when asked for, then the explicitly requested provider when configured,
errors only when fallback is administratively disabled, otherwise the
default provider. -/
def getProviderWithFallback (env : Env) (cfg : String → Bool) (requestedName : Option String)
    (prompt : Option String) : Except Err String :=
  let shouldUseAutoSelection :=
    requestedName == some "auto" || (requestedName == none && env.defaultProvider == some "auto")
  let autoHit :=
    if shouldUseAutoSelection then
      match prompt with
      | some pr =>
        let configured := (getConfiguredProviders cfg).filter (fun n => n != "MOCK")
        match selectProvider pr configured none with
        | some sel =>
          match getProvider sel with
          | some p => if cfg p then some p else none
          | none => none
        | none => none
      | none => none
    else none
  match autoHit with
  | some p => .ok p
  | none =>
    match requestedName with
    | some rn =>
      if rn != "auto" then
        match getProvider rn with
        | some p =>
          if cfg p then .ok p
          else if env.disableFallback then
            .error (.providerError
              ("Provider " ++ rn ++ " not configured and fallback is disabled") rn false)
          else getDefaultProvider env cfg
        | none =>
          if env.disableFallback then
            .error (.providerError
              ("Unknown provider " ++ rn ++ " and fallback is disabled") rn false)
          else getDefaultProvider env cfg
      else getDefaultProvider env cfg
    | none => getDefaultProvider env cfg

/-! ### Provider generate pipelines -/

deriving instance DecidableEq for Except

/-- One run of a provider generate call at the resilience level: outcome,
number of network attempts performed, and the module-level rate-limit and
cache states afterwards. -/
structure GenTrace where
  result : Except Err ProviderResult
  networkCalls : Nat
  rateLimits : RateLimitMap
  cache : ResponseCache
deriving DecidableEq, Repr

/-- RecraftProvider.generate (recraft.js lines 50-165), representative of
the providers that wire the resilience shell into their generate path
(IDEOGRAM, CLIPDROP, RECRAFT, FAL, LEONARDO, BFL): validate the prompt,
consult
the rate limiter, consult the cache, run the network exchange (abstracted
as the oracle net, one invocation per retry attempt) under executeWithRetry
with the default budget, and cache the successful result. -/
def recraftGenerate (input : GenerateInput) (now : Nat) (net : Nat → Except Err ProviderResult)
    (rl : RateLimitMap) (cache : ResponseCache) : GenTrace :=
  match validatePrompt "RECRAFT" input.prompt with
  | .error e => ⟨.error e, 0, rl, cache⟩
  | .ok _ =>
    match checkRateLimit "RECRAFT" now rl with
    | .limited w => ⟨.error (rateLimitError "RECRAFT" w), 0, rl, cache⟩
    | .allowed rl' =>
      let cacheKey := generateCacheKey "RECRAFT" input
      match getCachedResult cacheKey now cache with
      | (some cached, cache') => ⟨.ok cached, 0, rl', cache'⟩
      | (none, cache') =>
        let tr := executeWithRetry net "RECRAFT" MAX_RETRIES
        match tr.result with
        | .ok r => ⟨.ok r, tr.invocations, rl', cacheResult cacheKey r now cache'⟩
        | .error e => ⟨.error e, tr.invocations, rl', cache'⟩

/-- OpenAIProvider.generate (openai.js lines 31-102): after the API key
truthiness check it goes straight to the network exchange (abstracted as
the oracle net); there is no prompt validation, no rate-limit check, no
cache consultation, no caching of the result, and no retry loop. The
STABILITY provider generate/edit paths have the same shape. -/
def openaiGenerate (apiKey : Option String) (_input : GenerateInput) (_now : Nat)
    (net : Nat → Except Err ProviderResult) (rl : RateLimitMap) (cache : ResponseCache) :
    GenTrace :=
  if envKeyPresent apiKey then
    match net 0 with
    | .ok r => ⟨.ok r, 1, rl, cache⟩
    | .error e => ⟨.error e, 1, rl, cache⟩
  else
    ⟨.error (.providerError "OpenAI API key not configured" "OPENAI" false), 0, rl, cache⟩

/-! ### The image_generate dispatch slice (src/unnamed/part_001) -/

/-- The capability fields read by the dimension gate. -/
structure GenCaps where
  maxWidth : Option Nat
  maxHeight : Option Nat
deriving DecidableEq, Repr

/-- The plain Error thrown when the requested width exceeds the resolved
provider maximum (part_001 lines 592-596). -/
def widthExceededError (w : Nat) (providerName : String) (mw : Nat) : Err :=
  .plainError
    ("Width " ++ toString w ++ " exceeds provider " ++ providerName ++ " maximum (" ++
      toString mw ++ ").\n\nAction required:\n  1. Reduce width to " ++ toString mw ++
      " or less, OR\n  2. Use a different provider that supports larger dimensions\n\n" ++
      "Tip: Use image_config_providers tool to see maximum dimensions for all providers.")

/-- The plain Error thrown when the requested height exceeds the resolved
provider maximum (part_001 lines 598-603). -/
def heightExceededError (h : Nat) (providerName : String) (mh : Nat) : Err :=
  .plainError
    ("Height " ++ toString h ++ " exceeds provider " ++ providerName ++ " maximum (" ++
      toString mh ++ ").\n\nAction required:\n  1. Reduce height to " ++ toString mh ++
      " or less, OR\n  2. Use a different provider that supports larger dimensions\n\n" ++
      "Tip: Use image_config_providers tool to see maximum dimensions for all providers.")

/-- The height half of the dimension gate of the explicit-provider branch. -/
def heightGate (providerName : String) (caps : GenCaps) (input : GenerateInput) :
    Except Err Unit :=
  match input.height, caps.maxHeight with
  | some h, some mh =>
    if mh < h then .error (heightExceededError h providerName mh) else .ok ()
  | _, _ => .ok ()

/-- The dimension gate of the explicit-provider branch of image_generate
(part_001 lines 589-604): width first, then height, before any provider
invocation. -/
def dimensionGate (providerName : String) (caps : GenCaps) (input : GenerateInput) :
    Except Err Unit :=
  match input.width, caps.maxWidth with
  | some w, some mw =>
    if mw < w then .error (widthExceededError w providerName mw)
    else heightGate providerName caps input
  | _, _ => heightGate providerName caps input

/-- The response assembled by the image_generate handler: produced images
(disk persistence abstracted away), producing provider, model, and
warnings. -/
structure GenerateResponse where
  images : List ImageData
  provider : String
  model : Option String
  warnings : List String
deriving DecidableEq, Repr

/-- The per-image large-output warnings of the success path (part_001
lines 611-621): Math.round(base64Length * 0.75 / 1024) kilobytes, warned
above 5120. -/
def sizeWarnings (images : List ImageData) : List String :=
  images.enum.filterMap (fun p =>
    let base64Length := (((p.2.dataUrl.splitOn ",").get? 1).getD "").length
    let sizeKB := (6 * base64Length + 4096) / 8192
    if 5120 < sizeKB then
      some ("Image " ++ toString (p.1 + 1) ++ " is large (" ++ toString sizeKB ++
        "KB). Consider external storage for production use.")
    else none)

/-- The explicit-provider image_generate flow (part_001 lines 588-707):
dimension gate, primary generate call, and on a retryable ProviderError
with fallback enabled one call to the default provider when it differs
from the primary. The first component is the response or the propagated
error; the second lists the providers whose generate ran, in order. The
primary generate outcome is the primaryRun argument and the fallback
generate is the oracle runOf. -/
def imageGenerateExplicit (env : Env) (cfg : String → Bool) (providerName : String)
    (caps : GenCaps) (input : GenerateInput) (primaryRun : Except Err ProviderResult)
    (runOf : String → Except Err ProviderResult) :
    Except Err GenerateResponse × List String :=
  match dimensionGate providerName caps input with
  | .error e => (.error e, [])
  | .ok _ =>
    match primaryRun with
    | .ok r =>
      (.ok ⟨r.images, r.provider, r.model, (r.warnings.getD []) ++ sizeWarnings r.images⟩,
        [providerName])
    | .error e =>
      if e.isRetryableProviderError && !env.disableFallback then
        match getDefaultProvider env cfg with
        | .ok fb =>
          if fb != providerName then
            match runOf fb with
            | .ok r =>
              (.ok ⟨r.images, r.provider, r.model,
                  ["Original provider " ++ providerName ++ " failed: " ++ e.message,
                    "Fell back to " ++ fb] ++ (r.warnings.getD [])⟩,
                [providerName, fb])
            | .error e2 => (.error e2, [providerName, fb])
          else (.error e, [providerName])
        | .error e' => (.error e', [providerName])
      else (.error e, [providerName])

/-! ### Helper lemmas -/

lemma alistSet_mem {κ ν : Type} [DecidableEq κ] {k : κ} {v : ν} {m : List (κ × ν)}
    {e : κ × ν} (h : e ∈ alistSet k v m) : e = (k, v) ∨ e ∈ m := by
  induction m with
  | nil => simpa [alistSet] using h
  | cons hd tl ih =>
    by_cases hk : hd.1 = k
    · rw [show alistSet k v (hd :: tl) = (k, v) :: tl by
        simp [alistSet, hk]] at h
      rcases List.mem_cons.mp h with h | h
      · exact Or.inl h
      · exact Or.inr (List.mem_cons_of_mem _ h)
    · rw [show alistSet k v (hd :: tl) = hd :: alistSet k v tl by
        simp [alistSet, hk]] at h
      rcases List.mem_cons.mp h with h | h
      · exact Or.inr (h ▸ List.mem_cons_self hd tl)
      · rcases ih h with h | h
        · exact Or.inl h
        · exact Or.inr (List.mem_cons_of_mem _ h)

lemma alistLookup_alistSet_self {κ ν : Type} [DecidableEq κ] (k : κ) (v : ν)
    (m : List (κ × ν)) : alistLookup k (alistSet k v m) = some v := by
  induction m with
  | nil => simp [alistSet, alistLookup]
  | cons hd tl ih =>
    by_cases hk : hd.1 = k
    · simp [alistSet, alistLookup, hk]
    · simp [alistSet, alistLookup, hk, ih]

lemma alistLookup_filter {κ ν : Type} [DecidableEq κ] (p : κ × ν → Bool) (k : κ) (v : ν)
    (m : List (κ × ν)) (h : alistLookup k m = some v) (hp : p (k, v) = true) :
    alistLookup k (m.filter p) = some v := by
  induction m with
  | nil => simp [alistLookup] at h
  | cons hd tl ih =>
    obtain ⟨k', v'⟩ := hd
    by_cases hk : k' = k
    · subst hk
      rw [alistLookup] at h
      simp at h
      subst h
      simp [List.filter, hp, alistLookup]
    · rw [alistLookup] at h
      rw [if_neg hk] at h
      by_cases hpv : p (k', v') = true
      · simpa [List.filter, hpv, alistLookup, hk] using ih h
      · simp only [List.filter, Bool.not_eq_true] at hpv ⊢
        rw [hpv]
        exact ih h

/-- The entry just written by cacheResult is found with its insertion
timestamp, whether or not the oversize sweep ran. -/
lemma alistLookup_cacheResult (key : CacheKey) (r : ProviderResult) (now : Nat)
    (c : ResponseCache) :
    alistLookup key (cacheResult key r now c) = some ⟨r, now⟩ := by
  unfold cacheResult
  by_cases hlen : 100 < (alistSet key (⟨r, now⟩ : CacheEntry) c).length
  · rw [if_pos hlen]
    refine alistLookup_filter _ _ _ _ (alistLookup_alistSet_self key _ c) ?_
    simp
  · rw [if_neg hlen]
    exact alistLookup_alistSet_self key _ c

/-- A fresh read straight after cacheResult hits and leaves the cache
untouched. -/
lemma getCachedResult_cacheResult (key : CacheKey) (r : ProviderResult) (t₁ t₂ : Nat)
    (c : ResponseCache) (h : t₂ - t₁ < CACHE_TTL) :
    getCachedResult key t₂ (cacheResult key r t₁ c) = (some r, cacheResult key r t₁ c) := by
  unfold getCachedResult
  rw [alistLookup_cacheResult]
  simp [h]

/-- Splitting a run of sequential rate-limit checks. -/
lemma rlRepeat_add (name : String) (t : Nat) (m : RateLimitMap) (a b : Nat) :
    rlRepeat name t m (a + b)
      = match rlRepeat name t m a with
        | .ok m' => rlRepeat name t m' b
        | .error w => .error w := by
  induction a generalizing m with
  | zero => simp [rlRepeat, Nat.zero_add]
  | succ a ih =>
    rw [show a + 1 + b = (a + b) + 1 by omega]
    rw [rlRepeat, rlRepeat]
    cases checkRateLimit name t m with
    | allowed m' => exact ih m'
    | limited w => rfl

/-- Successive checks inside a live window step the count up while it stays
below the ceiling. -/
lemma rlRepeat_window (name : String) (t r : Nat) (ht : t < r) :
    ∀ (n k : Nat), 1 ≤ k → k + n ≤ MAX_REQUESTS_PER_WINDOW →
      rlRepeat name t [(name, ⟨k, r⟩)] n = .ok [(name, ⟨k + n, r⟩)]
  | 0, k, _, _ => by simp [rlRepeat]
  | n + 1, k, hk, hn => by
    rw [rlRepeat]
    have hcount : ¬ MAX_REQUESTS_PER_WINDOW ≤ k := by
      unfold MAX_REQUESTS_PER_WINDOW at hn ⊢
      omega
    have hstep : checkRateLimit name t [(name, ⟨k, r⟩)]
        = .allowed [(name, ⟨k + 1, r⟩)] := by
      simp [checkRateLimit, alistLookup, ht, hcount, alistSet]
    rw [hstep]
    show rlRepeat name t [(name, ⟨k + 1, r⟩)] n = _
    rw [show k + (n + 1) = (k + 1) + n by omega]
    exact rlRepeat_window name t r ht n (k + 1) (by omega) (by omega)

/-- Claim C5: for each backend name, with a ceiling of 10 per 60-second
window, the 1st through 10th checks in a window succeed, the 11th raises
the retryable rate-limited error carrying the remaining wait (60 seconds
when the checks share the window-opening timestamp), checks succeed again
once the window expiry has passed, and no stored count ever exceeds the
ceiling without the error being raised. -/
theorem rate_limit_boundary_and_invariant (name : String) (t : Nat) :
    rlRepeat name t [] MAX_REQUESTS_PER_WINDOW
        = .ok [(name, ⟨MAX_REQUESTS_PER_WINDOW, t + RATE_LIMIT_WINDOW⟩)]
    ∧ rlRepeat name t [] (MAX_REQUESTS_PER_WINDOW + 1) = .error 60
    ∧ (rateLimitError name 60).isRetryableProviderError = true
    ∧ (∀ t', t + RATE_LIMIT_WINDOW ≤ t' →
        checkRateLimit name t' [(name, ⟨MAX_REQUESTS_PER_WINDOW, t + RATE_LIMIT_WINDOW⟩)]
          = .allowed [(name, ⟨1, t' + RATE_LIMIT_WINDOW⟩)])
    ∧ (∀ (m m' : RateLimitMap) (nm : String) (now : Nat),
        (∀ e ∈ m, e.2.count ≤ MAX_REQUESTS_PER_WINDOW) →
        checkRateLimit nm now m = .allowed m' →
        ∀ e ∈ m', e.2.count ≤ MAX_REQUESTS_PER_WINDOW) := by
  have hfirst : checkRateLimit name t [] = .allowed [(name, ⟨1, t + RATE_LIMIT_WINDOW⟩)] := by
    simp [checkRateLimit, alistLookup, alistSet]
  have hwin : t < t + RATE_LIMIT_WINDOW := by unfold RATE_LIMIT_WINDOW; omega
  have hten : rlRepeat name t [] MAX_REQUESTS_PER_WINDOW
      = .ok [(name, ⟨MAX_REQUESTS_PER_WINDOW, t + RATE_LIMIT_WINDOW⟩)] := by
    rw [show MAX_REQUESTS_PER_WINDOW = 9 + 1 from rfl]
    rw [rlRepeat, hfirst]
    exact rlRepeat_window name t _ hwin 9 1 (by omega) (by decide)
  have hstep11 : checkRateLimit name t
      [(name, ⟨MAX_REQUESTS_PER_WINDOW, t + RATE_LIMIT_WINDOW⟩)]
      = .limited 60 := by
    simp [checkRateLimit, alistLookup, hwin]
    norm_num [RATE_LIMIT_WINDOW]
  refine ⟨hten, ?_, rfl, ?_, ?_⟩
  · rw [rlRepeat_add name t [] MAX_REQUESTS_PER_WINDOW 1, hten]
    show rlRepeat name t [(name, ⟨MAX_REQUESTS_PER_WINDOW, t + RATE_LIMIT_WINDOW⟩)] 1
      = .error 60
    rw [show (1 : Nat) = 0 + 1 from rfl, rlRepeat, hstep11]
  · intro t' ht'
    have hnot : ¬ t' < t + RATE_LIMIT_WINDOW := by omega
    simp [checkRateLimit, alistLookup, hnot, alistSet]
  · intro m m' nm now hinv hstep e he
    cases hlk : alistLookup nm m with
    | some limit =>
      simp only [checkRateLimit, hlk] at hstep
      by_cases hlive : now < limit.resetTime
      · rw [if_pos hlive] at hstep
        by_cases hfull : MAX_REQUESTS_PER_WINDOW ≤ limit.count
        · rw [if_pos hfull] at hstep
          exact absurd hstep (by simp)
        · rw [if_neg hfull] at hstep
          simp only [RateLimitOutcome.allowed.injEq] at hstep
          subst hstep
          rcases alistSet_mem he with h | h
          · subst h
            simpa using by omega
          · exact hinv e h
      · rw [if_neg hlive] at hstep
        simp only [RateLimitOutcome.allowed.injEq] at hstep
        subst hstep
        rcases alistSet_mem he with h | h
        · subst h
          simp [MAX_REQUESTS_PER_WINDOW]
        · exact hinv e h
    | none =>
      simp only [checkRateLimit, hlk] at hstep
      simp only [RateLimitOutcome.allowed.injEq] at hstep
      subst hstep
      rcases alistSet_mem he with h | h
      · subst h
        simp [MAX_REQUESTS_PER_WINDOW]
      · exact hinv e h

/-- Witness for C5, at backend name OPENAI and window start 0: the first
ten checks succeed, the eleventh is rejected with a 60 second wait. -/
theorem rate_limit_boundary_and_invariant_witness :
    rlRepeat "OPENAI" 0 [] MAX_REQUESTS_PER_WINDOW
        = .ok [("OPENAI", ⟨MAX_REQUESTS_PER_WINDOW, 0 + RATE_LIMIT_WINDOW⟩)]
    ∧ rlRepeat "OPENAI" 0 [] (MAX_REQUESTS_PER_WINDOW + 1) = .error 60 :=
  ⟨(rate_limit_boundary_and_invariant "OPENAI" 0).1,
    (rate_limit_boundary_and_invariant "OPENAI" 0).2.1⟩

/-- When every attempt in the budget fails and none of the errors is a
non-retryable ProviderError, the loop runs all attempts and rethrows the
last error. -/
lemma retryGo_allFail {α : Type} (fn : Nat → Except Err α) (name : String) (retries : Nat)
    (es : Nat → Err) (hfn : ∀ i, i < retries → fn i = .error (es i))
    (hes : ∀ i, i < retries → (es i).isNonRetryableProviderError = false) :
    ∀ (fuel a : Nat), a + fuel = retries → 0 < fuel →
      (retryGo fn name retries fuel a).result = .error (es (retries - 1))
      ∧ (retryGo fn name retries fuel a).invocations = retries
  | 0, _, _, hpos => absurd hpos (by omega)
  | fuel + 1, a, hsum, _ => by
    have ha : a < retries := by omega
    rw [retryGo, hfn a ha]
    simp only [hes a ha, Bool.false_eq_true, if_false]
    by_cases hlast : a + 1 < retries
    · rw [if_pos hlast]
      have := retryGo_allFail fn name retries es hfn hes fuel (a + 1) (by omega) (by omega)
      exact this
    · rw [if_neg hlast]
      have haeq : a = retries - 1 := by omega
      subst haeq
      refine ⟨rfl, ?_⟩
      show retries - 1 + 1 = retries
      omega

/-- Counterexample to C6: the attempt outcomes of the spec's retry/backoff
scenario (two transient failures, then success). -/
def exRetryOutcomes : Nat → Except Err String :=
  fun i => if i < 2 then .error (.providerError "Temporary error" "TEST" true)
           else .ok "success"

/-- Counterexample to claim C6: the executor sleeps exactly
min(initial_delay * 2 ^ attempt, max_delay) between attempts; no positive
random jitter is ever added, so the first recorded sleep equals 1000
exactly rather than exceeding the formula value. -/
theorem retry_backoff_has_no_jitter :
    (executeWithRetry exRetryOutcomes "TEST" 3).delays = [1000, 2000]
    ∧ ¬ ∃ j, 0 < j ∧ (executeWithRetry exRetryOutcomes "TEST" 3).delays.head?
        = some (min (INITIAL_RETRY_DELAY * 2 ^ 0) 10000 + j) := by
  constructor
  · decide
  · rintro ⟨j, hj, h⟩
    have hhead : (executeWithRetry exRetryOutcomes "TEST" 3).delays.head? = some 1000 := by
      decide
    rw [hhead] at h
    simp only [INITIAL_RETRY_DELAY, Option.some.injEq] at h
    omega

/-- Claim C6 (amended: the sleep between retryable attempts is exactly
min(initial_delay * 2 ^ attempt, max_delay), with no jitter). Under the
budget of 3 attempts: two transient failures followed by a success return
the success value after exactly 3 invocations with sleeps 1000 and 2000 ms;
a non-retryable ProviderError on the first attempt propagates immediately
after exactly 1 invocation with no sleep; three failures exhaust the budget
and the last error propagates after 3 invocations. -/
theorem retry_backoff_schedule {α : Type} (name : String) (v : α)
    (fn fn2 fn3 : Nat → Except Err α) (e1 e2 enr : Err) (es : Nat → Err)
    (h0 : fn 0 = .error e1) (h1 : fn 1 = .error e2) (h2 : fn 2 = .ok v)
    (hr0 : e1.isNonRetryableProviderError = false)
    (hr1 : e2.isNonRetryableProviderError = false)
    (hn0 : fn2 0 = .error enr) (hnr : enr.isNonRetryableProviderError = true)
    (hf : ∀ i, i < 3 → fn3 i = .error (es i))
    (hfr : ∀ i, i < 3 → (es i).isNonRetryableProviderError = false) :
    executeWithRetry fn name 3
        = ⟨.ok v, 3, [min (INITIAL_RETRY_DELAY * 2 ^ 0) 10000,
            min (INITIAL_RETRY_DELAY * 2 ^ 1) 10000]⟩
    ∧ executeWithRetry fn name 3 = ⟨.ok v, 3, [1000, 2000]⟩
    ∧ executeWithRetry fn2 name 3 = ⟨.error enr, 1, []⟩
    ∧ (executeWithRetry fn3 name 3).result = .error (es 2)
    ∧ (executeWithRetry fn3 name 3).invocations = 3 := by
  have hmain : executeWithRetry fn name 3 = ⟨.ok v, 3, [1000, 2000]⟩ := by
    show retryGo fn name 3 3 0 = _
    rw [show (3 : Nat) = 2 + 1 from rfl, retryGo, h0]
    simp only [hr0, Bool.false_eq_true, if_false]
    rw [if_pos (by omega), retryGo, h1]
    simp only [hr1, Bool.false_eq_true, if_false]
    rw [if_pos (by omega), retryGo, h2]
    simp [retryDelay, INITIAL_RETRY_DELAY]
  have hshort : executeWithRetry fn2 name 3 = ⟨.error enr, 1, []⟩ := by
    show retryGo fn2 name 3 3 0 = _
    rw [show (3 : Nat) = 2 + 1 from rfl, retryGo, hn0]
    simp [hnr]
  have hall := retryGo_allFail fn3 name 3 es hf hfr 3 0 (by omega) (by omega)
  refine ⟨?_, hmain, hshort, hall.1, hall.2⟩
  rw [hmain]
  simp [INITIAL_RETRY_DELAY]

/-- Witness for C6 at the concrete scenario outcomes. -/
theorem retry_backoff_schedule_witness :
    executeWithRetry exRetryOutcomes "TEST" 3 = ⟨.ok "success", 3, [1000, 2000]⟩
    ∧ executeWithRetry (fun _ => (.error (.providerError "Permanent error" "TEST" false) :
        Except Err String)) "TEST" 3
      = ⟨.error (.providerError "Permanent error" "TEST" false), 1, []⟩
    ∧ (executeWithRetry (fun _ => (.error (.plainError "network down") :
        Except Err String)) "TEST" 3).invocations = 3 :=
  have h := retry_backoff_schedule "TEST" "success" exRetryOutcomes
    (fun _ => .error (.providerError "Permanent error" "TEST" false))
    (fun _ => .error (.plainError "network down"))
    (.providerError "Temporary error" "TEST" true)
    (.providerError "Temporary error" "TEST" true)
    (.providerError "Permanent error" "TEST" false)
    (fun _ => .plainError "network down")
    (by decide) (by decide) (by decide) (by decide) (by decide) (by decide) (by decide)
    (fun i _ => rfl) (fun i _ => rfl)
  ⟨h.2.1, h.2.2.1, h.2.2.2.2⟩

/-- Claim C9: executeWithRetry rethrows without a further attempt exactly
for ProviderError values whose isRetryable flag is false; every other
error, plain JavaScript Error values included, lets the loop continue until
the attempt budget is exhausted, after which the last error propagates. -/
theorem retry_short_circuit_only_nonretryable {α : Type} (fn : Nat → Except Err α)
    (name : String) (retries : Nat) (e : Err) (es : Nat → Err) (hr : 0 < retries) :
    (fn 0 = .error e → e.isNonRetryableProviderError = true →
      executeWithRetry fn name retries = ⟨.error e, 1, []⟩)
    ∧ (∀ m p, (Err.providerError m p false).isNonRetryableProviderError = true)
    ∧ (∀ m p, (Err.providerError m p true).isNonRetryableProviderError = false)
    ∧ (∀ m, (Err.plainError m).isNonRetryableProviderError = false)
    ∧ ((∀ i, i < retries → fn i = .error (es i)) →
        (∀ i, i < retries → (es i).isNonRetryableProviderError = false) →
        (executeWithRetry fn name retries).result = .error (es (retries - 1))
        ∧ (executeWithRetry fn name retries).invocations = retries) := by
  refine ⟨?_, fun m p => rfl, fun m p => rfl, fun m => rfl, ?_⟩
  · intro h0 hnr
    obtain ⟨r', rfl⟩ : ∃ r', retries = r' + 1 := ⟨retries - 1, by omega⟩
    show retryGo fn name (r' + 1) (r' + 1) 0 = _
    rw [retryGo, h0]
    simp [hnr]
  · intro hfn hes
    exact retryGo_allFail fn name retries es hfn hes retries 0 (by omega) hr

/-- Witness for C9: a plain Error is retried to exhaustion while a
non-retryable ProviderError propagates at once. -/
theorem retry_short_circuit_only_nonretryable_witness :
    (executeWithRetry (fun _ => (.error (.providerError "bad key" "TEST" false) :
        Except Err String)) "TEST" 3 = ⟨.error (.providerError "bad key" "TEST" false), 1, []⟩)
    ∧ (executeWithRetry (fun _ => (.error (.plainError "boom") :
        Except Err String)) "TEST" 3).invocations = 3 :=
  have hA := retry_short_circuit_only_nonretryable
    (fun _ => (.error (.providerError "bad key" "TEST" false) : Except Err String))
    "TEST" 3 (.providerError "bad key" "TEST" false) (fun _ => .plainError "ignored")
    (by decide)
  have hB := retry_short_circuit_only_nonretryable
    (fun _ => (.error (.plainError "boom") : Except Err String))
    "TEST" 3 (.plainError "boom") (fun _ => .plainError "boom") (by decide)
  ⟨hA.1 rfl (by decide), (hB.2.2.2.2 (fun i _ => rfl) (fun i _ => rfl)).2⟩

/-- Counterexample to claim C2: the OPENAI backend reports itself configured
for the key demo, a placeholder shorter than the minimum length that the
format sanity check rejects in and out of test mode; isConfigured is
therefore not equivalent to the sanity check for every backend. -/
theorem openai_isConfigured_accepts_placeholder :
    openaiIsConfigured (some "demo") = true
    ∧ validateApiKey false (some "demo") = false
    ∧ validateApiKey true (some "demo") = false
    ∧ openaiIsConfigured (some "your-api-key-0000") = true
    ∧ validateApiKey false (some "your-api-key-0000") = false := by
  decide

/-- Claim C2 (amended: only RECRAFT applies the format sanity check; every
other backend merely tests that its credential variable is a non-empty
string). validateApiKey holds exactly for a present, non-empty key of at
least the minimum length that is either test-prefixed in test mode or free
of placeholder substrings; RECRAFT delegates to it, while the OPENAI-style
isConfigured holds exactly for a present non-empty key. -/
theorem isConfigured_characterization :
    (∀ key, openaiIsConfigured key = true ↔ ∃ k, key = some k ∧ k ≠ "")
    ∧ (∀ tEnv key, recraftIsConfigured tEnv key = validateApiKey tEnv key)
    ∧ (∀ tEnv, validateApiKey tEnv none = false)
    ∧ (∀ tEnv k, validateApiKey tEnv (some k) = true ↔
        (k ≠ "" ∧ API_KEY_MIN_LENGTH ≤ k.length ∧
          ((tEnv = true ∧ strStartsWith k "test-" = true)
            ∨ (placeholders.any fun p => strIncludes (strToLower k) p) = false))) := by
  refine ⟨?_, fun tEnv key => rfl, fun tEnv => rfl, ?_⟩
  · intro key
    cases key with
    | none => simp [openaiIsConfigured, envKeyPresent]
    | some k =>
      simp only [openaiIsConfigured, envKeyPresent, ne_eq, bne_iff_ne]
      constructor
      · intro h
        exact ⟨k, rfl, h⟩
      · rintro ⟨k', hk, hne⟩
        cases hk
        exact hne
  · intro tEnv k
    simp only [validateApiKey, API_KEY_MIN_LENGTH]
    split_ifs with hempty hshort htest hph
    · simp [hempty]
    · constructor
      · intro h
        exact absurd h (by simp)
      · rintro ⟨_, hlen, _⟩
        omega
    · have htest' : tEnv = true ∧ strStartsWith k "test-" = true := by simpa using htest
      exact ⟨fun _ => ⟨hempty, by omega, Or.inl htest'⟩, fun _ => rfl⟩
    · constructor
      · intro h
        exact absurd h (by simp)
      · rintro ⟨_, _, hor⟩
        rcases hor with ⟨ht, hs⟩ | hno
        · exact absurd (by rw [ht, hs]; rfl : (tEnv && strStartsWith k "test-") = true) htest
        · exact absurd hph (by simp [hno])
    · exact ⟨fun _ => ⟨hempty, by omega, Or.inr (by simpa using hph)⟩, fun _ => rfl⟩

/-- Witness for C2 (amended): a well-formed key is accepted by the sanity
check and a present key configures OPENAI. -/
theorem isConfigured_characterization_witness :
    openaiIsConfigured (some "valid-api-key-12345") = true
    ∧ validateApiKey false (some "valid-api-key-12345") = true :=
  ⟨(isConfigured_characterization.1 (some "valid-api-key-12345")).mpr
      ⟨"valid-api-key-12345", rfl, by decide⟩,
    (isConfigured_characterization.2.2.2 false "valid-api-key-12345").mpr
      ⟨by decide, by decide, Or.inr (by decide)⟩⟩

/-- The selection-determinism prompt of the spec. -/
def logoPrompt : String := "logo for a coffee shop with text"

set_option maxRecDepth 100000 in
/-- Evaluation of the classifier on the spec's reference prompt: only the
keywords logo (use case logo, 1 of 9 keywords) and text (use case
text-heavy, 1 of 11 keywords) match, both scoring 4; the tie keeps the
earlier entry, logo. -/
lemma analyzePrompt_logoPrompt_eval :
    analyzePrompt logoPrompt
      = some ("logo", (0.9 : ℚ) * (0.5 + 0.5 * (((1 : ℕ) : ℚ) / ((9 : ℕ) : ℚ)))) := rfl

/-- Counterexample to claim C4: the reference prompt classifies to the logo
use case, but the final confidence is 0.9 * (0.5 + 0.5 * 1/9) = 1/2, which
is not greater than 0.8. -/
theorem logo_prompt_confidence_below_threshold :
    analyzePrompt logoPrompt = some ("logo", 1/2)
    ∧ ¬ ((4 : ℚ)/5 < 1/2) := by
  refine ⟨?_, by norm_num⟩
  rw [analyzePrompt_logoPrompt_eval]
  norm_num

/-- Claim C4 (amended: the prompt classifies to the logo use case, with
final confidence base_confidence 0.9 times (0.5 + 0.5 * 1/9) for its one
matched keyword out of nine, namely exactly 1/2, which is below 0.8 rather
than above it). -/
theorem logo_prompt_classification :
    analyzePrompt logoPrompt
        = some ("logo", (9 : ℚ)/10 * (1/2 + 1/2 * (1/9)))
    ∧ (9 : ℚ)/10 * (1/2 + 1/2 * (1/9)) = 1/2
    ∧ (9 : ℚ)/10 * (1/2 + 1/2 * (1/9)) < 4/5 := by
  refine ⟨?_, by norm_num, by norm_num⟩
  rw [analyzePrompt_logoPrompt_eval]
  norm_num

/-- Claim C7: with an explicitly named backend, a requested width over the
resolved backend's declared maximum fails before any invocation with the
plain (hence not ProviderError-retryable) capability error naming the
limit, and the provider generate never runs (empty invocation list); the
same holds for a height over the declared maximum once the width passes. -/
theorem dimension_gate_blocks_generate (env : Env) (cfg : String → Bool)
    (providerName : String) (caps : GenCaps) (input : GenerateInput)
    (primaryRun : Except Err ProviderResult) (runOf : String → Except Err ProviderResult)
    (w mw : Nat) (hw : input.width = some w) (hmw : caps.maxWidth = some mw) (h : mw < w) :
    imageGenerateExplicit env cfg providerName caps input primaryRun runOf
        = (.error (widthExceededError w providerName mw), [])
    ∧ (widthExceededError w providerName mw).isRetryableProviderError = false
    ∧ (∀ (caps2 : GenCaps) (input2 : GenerateInput) (pr2 : Except Err ProviderResult)
        (run2 : String → Except Err ProviderResult) (h2 mh2 : Nat),
        input2.width = none → input2.height = some h2 → caps2.maxHeight = some mh2 →
        mh2 < h2 →
        imageGenerateExplicit env cfg providerName caps2 input2 pr2 run2
          = (.error (heightExceededError h2 providerName mh2), [])) := by
  refine ⟨?_, rfl, ?_⟩
  · unfold imageGenerateExplicit dimensionGate
    rw [hw, hmw]
    simp [h]
  · intro caps2 input2 pr2 run2 h2 mh2 hw2 hh2 hmh2 hlt2
    unfold imageGenerateExplicit dimensionGate heightGate
    rw [hw2, hh2, hmh2]
    simp [hlt2]

/-- Witness for C7: the spec's example, width 3000 against a 2048 maximum,
on a RECRAFT-shaped capability set. -/
theorem dimension_gate_blocks_generate_witness :
    imageGenerateExplicit ⟨none, false, false⟩ (fun _ => true) "RECRAFT"
        ⟨some 2048, some 2048⟩ ⟨"a cat", some "RECRAFT", some 3000, none, none, none⟩
        (.ok ⟨[], "RECRAFT", none, none⟩) (fun _ => .error (.plainError "unused"))
      = (.error (widthExceededError 3000 "RECRAFT" 2048), []) :=
  (dimension_gate_blocks_generate ⟨none, false, false⟩ (fun _ => true) "RECRAFT"
    ⟨some 2048, some 2048⟩ ⟨"a cat", some "RECRAFT", some 3000, none, none, none⟩
    (.ok ⟨[], "RECRAFT", none, none⟩) (fun _ => .error (.plainError "unused"))
    3000 2048 rfl rfl (by omega)).1

/-- A result used by the concrete dispatch scenarios. -/
def fallbackDemoResult : ProviderResult :=
  ⟨[⟨"data:image/png;base64,QUJD", "png"⟩], "OPENAI", some "gpt-image-1", none⟩

/-- Counterexample to claim C3: RECRAFT and OPENAI are both configured,
RECRAFT fails with a retryable error and every OPENAI call would succeed,
fallback is enabled; yet because the catch block takes
Config.getDefaultProvider() without excluding the failed backend, the
chosen fallback is RECRAFT itself, no second backend is invoked and the
original error propagates instead of OPENAI's result. -/
theorem fallback_skipped_when_default_equals_failed :
    imageGenerateExplicit ⟨none, false, false⟩ (fun n => n == "RECRAFT" || n == "OPENAI")
        "RECRAFT" ⟨some 2048, some 2048⟩ ⟨"a cat", some "RECRAFT", none, none, none, none⟩
        (.error (.providerError "boom" "RECRAFT" true))
        (fun n => if n == "OPENAI" then .ok fallbackDemoResult
                  else .error (.plainError "unused"))
      = (.error (.providerError "boom" "RECRAFT" true), ["RECRAFT"]) := by
  decide

/-- Claim C3 (amended: on a retryable primary failure with fallback
enabled, the orchestrator consults Config.getDefaultProvider(), which is
not filtered to exclude the failed backend; only when that default differs
from the failed backend is it invoked, exactly once, and its result is
returned with warnings naming the original failure and the fallback; when
the default is the failed backend itself, the original error propagates
with no second invocation). -/
theorem fallback_uses_default_provider (env : Env) (cfg : String → Bool)
    (pname : String) (caps : GenCaps) (input : GenerateInput) (msg ep : String)
    (runOf : String → Except Err ProviderResult) (fb : String) (rB : ProviderResult)
    (hdim : dimensionGate pname caps input = .ok ())
    (hdf : env.disableFallback = false)
    (hfb : getDefaultProvider env cfg = .ok fb)
    (hrun : runOf fb = .ok rB) :
    (fb ≠ pname →
      imageGenerateExplicit env cfg pname caps input
          (.error (.providerError msg ep true)) runOf
        = (.ok ⟨rB.images, rB.provider, rB.model,
            ["Original provider " ++ pname ++ " failed: " ++ msg, "Fell back to " ++ fb]
              ++ (rB.warnings.getD [])⟩, [pname, fb]))
    ∧ (fb = pname →
      imageGenerateExplicit env cfg pname caps input
          (.error (.providerError msg ep true)) runOf
        = (.error (.providerError msg ep true), [pname])) := by
  constructor
  · intro hne
    unfold imageGenerateExplicit
    rw [hdim, hdf, hfb]
    simp only [Err.isRetryableProviderError, Bool.not_false, Bool.and_true, if_pos rfl]
    rw [if_pos (bne_iff_ne.mpr hne), hrun]
    rfl
  · intro heq
    subst heq
    unfold imageGenerateExplicit
    rw [hdim, hdf, hfb]
    simp [Err.isRetryableProviderError]

/-- Witness for C3 (amended), both branches at concrete data: STABILITY
fails and falls back to the default RECRAFT; RECRAFT fails and, being the
default itself, keeps its own error. -/
theorem fallback_uses_default_provider_witness :
    imageGenerateExplicit ⟨none, false, false⟩ (fun n => n == "RECRAFT" || n == "OPENAI")
        "STABILITY" ⟨some 1536, some 1536⟩ ⟨"a cat", some "STABILITY", none, none, none, none⟩
        (.error (.providerError "boom" "STABILITY" true))
        (fun _ => .ok fallbackDemoResult)
      = (.ok ⟨fallbackDemoResult.images, fallbackDemoResult.provider, fallbackDemoResult.model,
          ["Original provider STABILITY failed: boom", "Fell back to RECRAFT"]
            ++ (fallbackDemoResult.warnings.getD [])⟩, ["STABILITY", "RECRAFT"])
    ∧ imageGenerateExplicit ⟨none, false, false⟩ (fun n => n == "RECRAFT" || n == "OPENAI")
        "RECRAFT" ⟨some 2048, some 2048⟩ ⟨"a cat", some "RECRAFT", none, none, none, none⟩
        (.error (.providerError "boom" "RECRAFT" true))
        (fun _ => .ok fallbackDemoResult)
      = (.error (.providerError "boom" "RECRAFT" true), ["RECRAFT"]) :=
  ⟨(fallback_uses_default_provider ⟨none, false, false⟩
      (fun n => n == "RECRAFT" || n == "OPENAI") "STABILITY" ⟨some 1536, some 1536⟩
      ⟨"a cat", some "STABILITY", none, none, none, none⟩ "boom" "STABILITY"
      (fun _ => .ok fallbackDemoResult) "RECRAFT" fallbackDemoResult
      rfl rfl (by decide) rfl).1 (by decide),
    (fallback_uses_default_provider ⟨none, false, false⟩
      (fun n => n == "RECRAFT" || n == "OPENAI") "RECRAFT" ⟨some 2048, some 2048⟩
      ⟨"a cat", some "RECRAFT", none, none, none, none⟩ "boom" "RECRAFT"
      (fun _ => .ok fallbackDemoResult) "RECRAFT" fallbackDemoResult
      rfl rfl (by decide) rfl).2 rfl⟩

/-- Claim C10: with fallback enabled, getProviderWithFallback called with an
explicit name that is unknown or resolves to an unconfigured backend raises
no error and silently answers with Config.getDefaultProvider(); in the
plain-environment case this is the first configured name of the fixed
chain, carrying no indication of the substitution. -/
theorem getProviderWithFallback_silent_substitution (env : Env) (cfg : String → Bool)
    (rn : String) (prompt : Option String) (d : String)
    (hdf : env.disableFallback = false) (hrn : rn ≠ "auto")
    (hnc : ∀ p, getProvider rn = some p → cfg p = false) :
    getProviderWithFallback env cfg (some rn) prompt = getDefaultProvider env cfg
    ∧ (env.defaultProvider = none → fallbackChain.find? cfg = some d →
        getProviderWithFallback env cfg (some rn) prompt = .ok d) := by
  have hbeq : (some rn == some "auto") = false := by
    simp [hrn]
  have hne : (rn != "auto") = true := bne_iff_ne.mpr hrn
  have hmain : getProviderWithFallback env cfg (some rn) prompt
      = getDefaultProvider env cfg := by
    cases hgp : getProvider rn with
    | some p =>
      have hcfgp := hnc p hgp
      simp [getProviderWithFallback, hbeq, hne, hgp, hcfgp, hdf]
    | none =>
      simp [getProviderWithFallback, hbeq, hne, hgp, hdf]
  refine ⟨hmain, ?_⟩
  intro hdefp hfind
  rw [hmain]
  unfold getDefaultProvider
  rw [hdefp, hdf, hfind]
  rfl

/-- Witness for C10: the unknown name NOPE silently becomes RECRAFT, the
first configured chain entry. -/
theorem getProviderWithFallback_silent_substitution_witness :
    getProviderWithFallback ⟨none, false, false⟩ (fun n => n == "RECRAFT" || n == "OPENAI")
        (some "NOPE") (some "a cat") = .ok "RECRAFT" :=
  (getProviderWithFallback_silent_substitution ⟨none, false, false⟩
    (fun n => n == "RECRAFT" || n == "OPENAI") "NOPE" (some "a cat") "RECRAFT"
    rfl (by decide)
    (fun p hp => by
      rw [show getProvider "NOPE" = none from by decide] at hp
      exact Option.noConfusion hp)).2 rfl (by decide)

lemma mem_of_contains {l : List String} {a : String} (h : l.contains a = true) : a ∈ l :=
  List.mem_of_elem_eq_true h

lemma contains_of_ite_find? {avail l : List String} {c : Prop} [Decidable c] {x : String}
    (h : (if c then List.find? avail.contains l else none) = some x) :
    avail.contains x = true := by
  by_cases hc : c
  · rw [if_pos hc] at h
    exact List.find?_some h
  · rw [if_neg hc] at h
    exact absurd h (by simp)

set_option maxRecDepth 10000 in
/-- Every name selectProvider answers with is a member of the available
list: each return site is guarded by availableProviders.contains or takes
the list head. -/
lemma selectProvider_mem (prompt : String) (avail : List String) (explicit : Option String)
    (p : String) (h : selectProvider prompt avail explicit = some p) : p ∈ avail := by
  unfold selectProvider at h
  iterate 6
    all_goals try (repeat' split at h)
    all_goals try simp at h
  all_goals try subst h
  all_goals
    first
      | exact mem_of_contains
          ((Bool.and_eq_true _ _ ▸ ‹(_ != "auto" && avail.contains _) = true›).2)
      | exact mem_of_contains (List.find?_some ‹_›)
      | exact mem_of_contains (contains_of_ite_find? ‹_›)
      | exact List.mem_of_mem_head? (by simp [h])

/-- On a non-empty available list selectProvider always answers. -/
lemma selectProvider_ne_none (prompt : String) (a : String) (as : List String)
    (explicit : Option String) : selectProvider prompt (a :: as) explicit ≠ none := by
  unfold selectProvider
  rw [if_neg (by simp)]
  intro h
  iterate 6
    all_goals try (repeat' split at h)
    all_goals try simp at h

/-- Claim C8: selectProvider returns an explicit available non-auto name
outright; it returns nothing exactly when the available list is empty, and
on a non-empty list it returns one of its members. -/
theorem selectProvider_explicit_and_total (prompt : String) (avail : List String)
    (explicit : Option String) :
    (avail = [] → selectProvider prompt avail explicit = none)
    ∧ (avail ≠ [] → ∃ p, selectProvider prompt avail explicit = some p ∧ p ∈ avail)
    ∧ (∀ e, explicit = some e → e ≠ "auto" → e ∈ avail →
        selectProvider prompt avail explicit = some e) := by
  refine ⟨?_, ?_, ?_⟩
  · rintro rfl
    simp [selectProvider]
  · intro hne
    obtain ⟨a, as, rfl⟩ : ∃ a as, avail = a :: as := by
      cases avail with
      | nil => exact absurd rfl hne
      | cons a as => exact ⟨a, as, rfl⟩
    cases hsel : selectProvider prompt (a :: as) explicit with
    | none => exact absurd hsel (selectProvider_ne_none prompt a as explicit)
    | some p => exact ⟨p, rfl, selectProvider_mem prompt _ explicit p hsel⟩
  · rintro e rfl hne hmem
    unfold selectProvider
    rw [if_neg (by simp [List.ne_nil_of_mem hmem])]
    have hcond : (e != "auto" && (·.contains e) avail) = true := by
      simp only [Bool.and_eq_true, bne_iff_ne]
      exact ⟨hne, List.elem_eq_true_of_mem hmem⟩
    simp only [hcond]
    simp

/-- Witness for C8: an explicit available name is returned outright, and a
non-empty list always yields a member. -/
theorem selectProvider_explicit_and_total_witness :
    selectProvider "a cat" ["OPENAI", "STABILITY"] (some "STABILITY") = some "STABILITY"
    ∧ ∃ p, selectProvider "a cat" ["OPENAI", "STABILITY"] none = some p
        ∧ p ∈ ["OPENAI", "STABILITY"] :=
  ⟨(selectProvider_explicit_and_total "a cat" ["OPENAI", "STABILITY"]
      (some "STABILITY")).2.2 "STABILITY" rfl (by decide) (by decide),
    (selectProvider_explicit_and_total "a cat" ["OPENAI", "STABILITY"] none).2.1
      (by decide)⟩

/-- A generate input with an empty prompt, which validatePrompt rejects. -/
def emptyPromptInput : GenerateInput := ⟨"", some "OPENAI", none, none, none, none⟩

/-- A syntactically plausible API key for the OPENAI scenarios. -/
def openaiDemoKey : Option String := some "k-1234567890"

/-- A network oracle whose every attempt succeeds with the demo result. -/
def openaiDemoNet : Nat → Except Err ProviderResult := fun _ => .ok fallbackDemoResult

/-- Counterexample to claim C1: the OPENAI generate path accepts an empty
prompt that validatePrompt would reject and goes straight to the network;
it touches neither the rate-limit map nor the cache, and a second identical
request immediately afterwards performs a second network call instead of a
cache hit. -/
theorem openai_generate_skips_resilience_shell :
    (openaiGenerate openaiDemoKey emptyPromptInput 0 openaiDemoNet [] []).result
        = .ok fallbackDemoResult
    ∧ (openaiGenerate openaiDemoKey emptyPromptInput 0 openaiDemoNet [] []).networkCalls = 1
    ∧ (openaiGenerate openaiDemoKey emptyPromptInput 0 openaiDemoNet [] []).rateLimits = []
    ∧ (openaiGenerate openaiDemoKey emptyPromptInput 0 openaiDemoNet [] []).cache = []
    ∧ (openaiGenerate openaiDemoKey emptyPromptInput 1000 openaiDemoNet
        (openaiGenerate openaiDemoKey emptyPromptInput 0 openaiDemoNet [] []).rateLimits
        (openaiGenerate openaiDemoKey emptyPromptInput 0 openaiDemoNet [] []).cache).networkCalls
      = 1
    ∧ validatePrompt "OPENAI" emptyPromptInput.prompt
        = .error (.providerError "Prompt cannot be empty" "OPENAI" false) := by
  decide

/-- Claim C1 (amended: the resilience pipeline — prompt validation, with
empty and over-long prompts raising invalid-input before any network
activity, then the rate limiter, then the cache, with the cache populated
on success so that a second identical request within the TTL is answered
from the cache without a new network call — holds for the backends that
wire the shell into their generate path, IDEOGRAM, CLIPDROP, RECRAFT, FAL,
LEONARDO and BFL, modelled here by RECRAFT; the OPENAI and STABILITY
generate paths perform none of these steps). -/
theorem resilience_pipeline_for_shell_backends :
    (∀ (input : GenerateInput) (t : Nat) (net : Nat → Except Err ProviderResult)
        (rl : RateLimitMap) (c : ResponseCache),
      (strTrim input.prompt).length = 0 →
      recraftGenerate input t net rl c
        = ⟨.error (.providerError "Prompt cannot be empty" "RECRAFT" false), 0, rl, c⟩)
    ∧ (∀ (input : GenerateInput) (t : Nat) (net : Nat → Except Err ProviderResult)
        (rl : RateLimitMap) (c : ResponseCache),
      (strTrim input.prompt).length ≠ 0 →
      MAX_PROMPT_LENGTH < input.prompt.length →
      recraftGenerate input t net rl c
        = ⟨.error (.providerError
            ("Prompt length " ++ toString input.prompt.length ++
              " exceeds maximum allowed length of " ++ toString MAX_PROMPT_LENGTH)
            "RECRAFT" false), 0, rl, c⟩)
    ∧ (∀ (input : GenerateInput) (t w : Nat) (net : Nat → Except Err ProviderResult)
        (rl : RateLimitMap) (c : ResponseCache),
      validatePrompt "RECRAFT" input.prompt = .ok () →
      checkRateLimit "RECRAFT" t rl = .limited w →
      recraftGenerate input t net rl c
        = ⟨.error (rateLimitError "RECRAFT" w), 0, rl, c⟩)
    ∧ (∀ (input : GenerateInput) (t : Nat) (net : Nat → Except Err ProviderResult)
        (rl rl' : RateLimitMap) (c c' : ResponseCache) (r : ProviderResult),
      validatePrompt "RECRAFT" input.prompt = .ok () →
      checkRateLimit "RECRAFT" t rl = .allowed rl' →
      getCachedResult (generateCacheKey "RECRAFT" input) t c = (some r, c') →
      recraftGenerate input t net rl c = ⟨.ok r, 0, rl', c'⟩)
    ∧ (∀ (input : GenerateInput) (t₁ t₂ : Nat)
        (net net2 : Nat → Except Err ProviderResult)
        (rl rl₁ rl₂ : RateLimitMap) (c c₁ : ResponseCache) (r : ProviderResult),
      validatePrompt "RECRAFT" input.prompt = .ok () →
      checkRateLimit "RECRAFT" t₁ rl = .allowed rl₁ →
      getCachedResult (generateCacheKey "RECRAFT" input) t₁ c = (none, c₁) →
      (executeWithRetry net "RECRAFT" MAX_RETRIES).result = .ok r →
      checkRateLimit "RECRAFT" t₂ rl₁ = .allowed rl₂ →
      t₂ - t₁ < CACHE_TTL →
      recraftGenerate input t₁ net rl c
          = ⟨.ok r, (executeWithRetry net "RECRAFT" MAX_RETRIES).invocations, rl₁,
              cacheResult (generateCacheKey "RECRAFT" input) r t₁ c₁⟩
        ∧ recraftGenerate input t₂ net2 rl₁
            (cacheResult (generateCacheKey "RECRAFT" input) r t₁ c₁)
          = ⟨.ok r, 0, rl₂, cacheResult (generateCacheKey "RECRAFT" input) r t₁ c₁⟩)
    ∧ (∀ (k : Option String) (input : GenerateInput) (t : Nat)
        (net : Nat → Except Err ProviderResult) (rl : RateLimitMap) (c : ResponseCache),
      envKeyPresent k = true →
      (openaiGenerate k input t net rl c).rateLimits = rl
        ∧ (openaiGenerate k input t net rl c).cache = c
        ∧ (openaiGenerate k input t net rl c).networkCalls = 1) := by
  refine ⟨?_, ?_, ?_, ?_, ?_, ?_⟩
  · intro input t net rl c h
    simp [recraftGenerate, validatePrompt, h]
  · intro input t net rl c hne hlong
    simp [recraftGenerate, validatePrompt, hne, hlong]
  · intro input t w net rl c hv hlim
    simp [recraftGenerate, hv, hlim]
  · intro input t net rl rl' c c' r hv hallow hhit
    simp [recraftGenerate, hv, hallow, hhit]
  · intro input t₁ t₂ net net2 rl rl₁ rl₂ c c₁ r hv hallow1 hmiss hnet hallow2 httl
    have hfirst : recraftGenerate input t₁ net rl c
        = ⟨.ok r, (executeWithRetry net "RECRAFT" MAX_RETRIES).invocations, rl₁,
            cacheResult (generateCacheKey "RECRAFT" input) r t₁ c₁⟩ := by
      simp [recraftGenerate, hv, hallow1, hmiss, hnet]
    refine ⟨hfirst, ?_⟩
    have hhit := getCachedResult_cacheResult (generateCacheKey "RECRAFT" input) r t₁ t₂ c₁ httl
    simp [recraftGenerate, hv, hallow2, hhit]
  · intro k input t net rl c hk
    cases hnet : net 0 with
    | ok r => simp [openaiGenerate, hk, hnet]
    | error e => simp [openaiGenerate, hk, hnet]

/-- Witness for C1 (amended), on concrete data: a first RECRAFT call misses
the cache, performs one network attempt and caches; the identical call one
second later is served from the cache with no network attempt. -/
theorem resilience_pipeline_for_shell_backends_witness :
    recraftGenerate ⟨"a cat", none, none, none, none, none⟩ 0 openaiDemoNet [] []
        = ⟨.ok fallbackDemoResult,
            (executeWithRetry openaiDemoNet "RECRAFT" MAX_RETRIES).invocations,
            [("RECRAFT", ⟨1, RATE_LIMIT_WINDOW⟩)],
            cacheResult (generateCacheKey "RECRAFT" ⟨"a cat", none, none, none, none, none⟩)
              fallbackDemoResult 0 []⟩
    ∧ recraftGenerate ⟨"a cat", none, none, none, none, none⟩ 1000 openaiDemoNet
          [("RECRAFT", ⟨1, RATE_LIMIT_WINDOW⟩)]
          (cacheResult (generateCacheKey "RECRAFT" ⟨"a cat", none, none, none, none, none⟩)
            fallbackDemoResult 0 [])
        = ⟨.ok fallbackDemoResult, 0, [("RECRAFT", ⟨2, RATE_LIMIT_WINDOW⟩)],
            cacheResult (generateCacheKey "RECRAFT" ⟨"a cat", none, none, none, none, none⟩)
              fallbackDemoResult 0 []⟩ :=
  resilience_pipeline_for_shell_backends.2.2.2.2.1
    ⟨"a cat", none, none, none, none, none⟩ 0 1000 openaiDemoNet openaiDemoNet
    [] [("RECRAFT", ⟨1, RATE_LIMIT_WINDOW⟩)] [("RECRAFT", ⟨2, RATE_LIMIT_WINDOW⟩)]
    [] [] fallbackDemoResult
    (by decide) (by decide) (by decide) (by decide) (by decide) (by decide)

end ImageGen
